import Mathlib

/-
Verification of the cloudflare-dns-operator controller.

This file shallowly embeds the parts of the Rust source that the checked
properties are about:

* src/dns/cloudflare.rs : the caching Cloudflare API client
  (list_zones, list_dns_records, create_dns_record, delete_dns_record,
  update_dns_record_and_wait).  HTTP requests are modelled by an explicit
  outcome schedule in the state (an empty schedule means every request
  succeeds); every issued request is recorded in a trace, from which
  provider write calls (create/delete) can be counted.
* src/services.rs : select_ip, with a dedicated result constructor for a
  Rust panic (out-of-bounds index).
* src/conditions.rs : error_condition / success_condition and
  last_ready_condition.
* src/dns_check.rs : the per-resource match-state update of one check
  iteration.
* src/reconcile.rs : cleanup, and src/main.rs : the error handling wrapped
  around apply/cleanup plus error_policy.
* src/resources.rs : ValueOrReference / Reference lookup against config
  maps and secrets.  The external utf8/base64 decoders are parameters.

Time is modelled as a natural number of seconds (chrono Durations of the
source become the constants 60 and 300).
-/

-- ============================================================
-- Generic association list helpers (model of HashMap / BTreeMap)
-- ============================================================

def alistLookup {κ α : Type} [BEq κ] (m : List (κ × α)) (k : κ) : Option α :=
  (m.find? (fun p => p.1 == k)).map (fun p => p.2)

def alistInsert {κ α : Type} [BEq κ] (m : List (κ × α)) (k : κ) (v : α) : List (κ × α) :=
  match m with
  | [] => [(k, v)]
  | (k2, v2) :: rest => if k2 == k then (k, v) :: rest else (k2, v2) :: alistInsert rest k v

def alistErase {κ α : Type} [BEq κ] (m : List (κ × α)) (k : κ) : List (κ × α) :=
  m.filter (fun p => p.1 != k)

theorem alistLookup_insert_self {κ α : Type} [BEq κ] [LawfulBEq κ]
    (m : List (κ × α)) (k : κ) (v : α) :
    alistLookup (alistInsert m k v) k = some v := by
  induction m with
  | nil => simp [alistLookup, alistInsert]
  | cons hd tl ih =>
    obtain ⟨k2, v2⟩ := hd
    by_cases h : k2 == k
    · simp [alistInsert, h, alistLookup]
    · simp only [alistInsert, h, if_false]
      simpa [alistLookup, List.find?, (by simpa using h : ¬ k2 == k)] using ih

theorem alistLookup_erase_self {κ α : Type} [BEq κ] [LawfulBEq κ]
    (m : List (κ × α)) (k : κ) :
    alistLookup (alistErase m k) k = none := by
  induction m with
  | nil => simp [alistLookup, alistErase]
  | cons hd tl ih =>
    obtain ⟨k2, v2⟩ := hd
    by_cases h : k2 == k
    · have h2 : (k2 != k) = false := by simp [bne, h]
      simp only [alistErase, List.filter, h2] at *
      exact ih
    · have hfalse : (k2 == k) = false := by simpa using h
      have h2 : (k2 != k) = true := by simp [bne, hfalse]
      simp only [alistErase, List.filter, h2] at *
      simp only [alistLookup, List.find?, hfalse] at *
      exact ih

-- ============================================================
-- Record types (src/resources.rs)
-- ============================================================

/-- Supported DNS record types (enum RecordType in src/resources.rs). -/
inductive RecordType where
  | A | AAAA | CNAME | MX | TXT | SRV | LOC | SPF | NS
deriving Repr, DecidableEq

/-- Serde serialization name of a record type (the serde rename attributes). -/
def RecordType.toName : RecordType → String
  | .A => "A"
  | .AAAA => "AAAA"
  | .CNAME => "CNAME"
  | .MX => "MX"
  | .TXT => "TXT"
  | .SRV => "SRV"
  | .LOC => "LOC"
  | .SPF => "SPF"
  | .NS => "NS"

-- ============================================================
-- IP selection policy (src/services.rs, select_ip)
-- ============================================================

/-- Model of std::net::IpAddr; the payload is irrelevant to selection. -/
inductive IpAddr where
  | v4 (a : Nat)
  | v6 (a : Nat)
deriving Repr, DecidableEq

def IpAddr.is_ipv4 : IpAddr → Bool
  | .v4 _ => true
  | .v6 _ => false

def IpAddr.is_ipv6 : IpAddr → Bool
  | .v4 _ => false
  | .v6 _ => true

/-- Outcome of select_ip: either a Rust panic (out-of-bounds slice index) or a value. -/
inductive SelectResult where
  | panics
  | returns (ip : Option IpAddr)
deriving Repr, DecidableEq

/-- Shallow embedding of select_ip from src/services.rs.  The match arms are in
source order.  In the multi-ip arms the Rust code is
`ips.iter().find(..).copied().unwrap_or(ips[0])`: the argument `ips[0]` is
evaluated eagerly, so reaching one of those arms with an empty slice is an
out-of-bounds panic, modelled by `SelectResult.panics`. -/
def select_ip (ips : List IpAddr) (record_type : Option RecordType) : SelectResult :=
  match ips, record_type with
  | [], none => .returns none
  | [ip@(.v4 _)], some .A => .returns (some ip)
  | [ip@(.v4 _)], some .AAAA => .returns (some ip)
  | [ip@(.v6 _)], some .A => .returns (some ip)
  | [ip@(.v6 _)], some .AAAA => .returns (some ip)
  | [ip], _ => .returns (some ip)
  | ips2, some .A =>
      match ips2.head? with
      | none => .panics
      | some first => .returns (some ((ips2.find? IpAddr.is_ipv4).getD first))
  | ips2, some .AAAA =>
      match ips2.head? with
      | none => .panics
      | some first => .returns (some ((ips2.find? IpAddr.is_ipv6).getD first))
  | ips2, _ =>
      match ips2.head? with
      | none => .panics
      | some first => .returns (some ((ips2.find? IpAddr.is_ipv4).getD first))

-- ============================================================
-- Reconcile error handling (src/main.rs, reconcile + error_policy)
-- ============================================================

/-- Model of kube::Error: an API error with a status code, or any other kube error. -/
inductive KubeError where
  | api (code : Nat)
  | otherKube
deriving Repr, DecidableEq

/-- Model of ReconcileError from src/reconcile.rs: Kube, Deletion, and Other
(the eyre variant; Cloudflare API failures arrive here as strings of the form
"cloudflare api error: ..."). -/
inductive ReconcileError where
  | kube (e : KubeError)
  | deletion
  | other (msg : String)
deriving Repr, DecidableEq

/-- Model of kube runtime controller Action: requeue after the given number of seconds. -/
structure ReconcileAction where
  requeue_secs : Nat
deriving Repr, DecidableEq

/-- Shallow embedding of the error handling inside the finalizer closure of
reconcile in src/main.rs: the match over the apply/cleanup result.  Kube API
errors with code 409 or 404 and Deletion errors are logged and absorbed; every
other error is returned; on the non-error paths the action is a 5-minute
requeue. -/
def handle_reconcile_result (result : Except ReconcileError Unit) : Except ReconcileError ReconcileAction :=
  match result with
  | .ok _ => .ok { requeue_secs := 5 * 60 }
  | .error e =>
    match e with
    | .kube (.api 409) => .ok { requeue_secs := 5 * 60 }
    | .kube (.api 404) => .ok { requeue_secs := 5 * 60 }
    | .deletion => .ok { requeue_secs := 5 * 60 }
    | e2 => .error e2

/-- Shallow embedding of error_policy in src/main.rs. -/
def error_policy (_err : ReconcileError) : ReconcileAction :=
  { requeue_secs := 15 }

-- ============================================================
-- DNS check match-state update (src/dns_check.rs)
-- ============================================================

/-- One iteration of the per-resource body of the check loop in
src/dns_check.rs (the part guarded by the dns_lookup_success mutex):
look up the previous match boolean for key "ns:name" (default false),
compute changed, store the current boolean unconditionally, and report
whether a reconcile trigger is emitted. -/
def dns_check_step (dns_lookup_success : List (String × Bool)) (ns name : String)
    (matchesNow : Bool) : List (String × Bool) × Bool :=
  let key := ns ++ ":" ++ name
  let matched_before := (alistLookup dns_lookup_success key).getD false
  let changed := matched_before != matchesNow
  (alistInsert dns_lookup_success key matchesNow, changed)

-- ============================================================
-- Status conditions (src/conditions.rs) and the custom resource
-- ============================================================

/-- Model of k8s_openapi Condition; last_transition_time is a Nat timestamp. -/
structure Condition where
  type_ : String
  status : String
  reason : String
  message : String
  last_transition_time : Nat
  observed_generation : Option Int
deriving Repr, DecidableEq

/-- Model of CloudflareDNSRecordStatus from src/resources.rs. -/
structure CloudflareDNSRecordStatus where
  record_id : String
  zone_id : String
  pending : Bool
  conditions : Option (List Condition)
deriving Repr, DecidableEq

/-- The slice of a CloudflareDNSRecord resource that conditions.rs and
cleanup read: metadata.name, metadata.namespace and the status subresource. -/
structure CloudflareDNSRecord where
  metadata_name : Option String
  metadata_namespace : Option String
  status : Option CloudflareDNSRecordStatus
deriving Repr, DecidableEq

/-- Shallow embedding of last_ready_condition in src/conditions.rs: when the
resource records no condition list at all the result is (true, none); otherwise
it is the first condition of type "Ready" together with whether its status
string is "True" (false also when no Ready condition is present). -/
def last_ready_condition (conditions : Option (List Condition)) : Bool × Option Condition :=
  match conditions with
  | none => (true, none)
  | some cs =>
      let ready_cond := cs.find? (fun c => c.type_ == "Ready")
      ((ready_cond.map (fun c => c.status == "True")).getD false, ready_cond)

/-- Shallow embedding of error_condition in src/conditions.rs. -/
def error_condition (current : CloudflareDNSRecord) (reason message : String)
    (observed_generation : Option Int) (now : Nat) : Condition :=
  let conditions := current.status.bind (fun status => status.conditions)
  let (was_ready, last_condition) := last_ready_condition conditions
  let last_transition_time :=
    if was_ready then now
    else (last_condition.map (fun c => c.last_transition_time)).getD now
  { type_ := "Ready", status := "False", reason := reason, message := message,
    last_transition_time := last_transition_time,
    observed_generation := observed_generation }

/-- Shallow embedding of success_condition in src/conditions.rs.  The reason
string reproduces the source's spelling. -/
def success_condition (current : CloudflareDNSRecord)
    (observed_generation : Option Int) (now : Nat) : Condition :=
  let conditions := current.status.bind (fun status => status.conditions)
  let (was_ready, last_condition) := last_ready_condition conditions
  let last_transition_time :=
    if !was_ready then now
    else (last_condition.map (fun c => c.last_transition_time)).getD now
  { type_ := "Ready", status := "True", reason := "Sucessfully applied changes",
    message := "DNS record ready",
    last_transition_time := last_transition_time,
    observed_generation := observed_generation }

/-- Replace the condition list recorded in a resource's status by the given
single condition, as the apply path of src/reconcile.rs does with
`conditions: Some(vec![condition])`. -/
def withRecordedCondition (current : CloudflareDNSRecord) (c : Condition) : CloudflareDNSRecord :=
  { current with
    status := some { record_id := "", zone_id := "", pending := false,
                     conditions := some [c] } }

-- ============================================================
-- Value / reference resolution (src/resources.rs)
-- ============================================================

/-- Model of ConfigMapKeySelector / SecretKeySelector: object name and key. -/
structure KeySelector where
  name : String
  key : String
deriving Repr, DecidableEq

/-- Model of enum Reference from src/resources.rs. -/
inductive Reference where
  | configMap (selector : KeySelector)
  | secret (selector : KeySelector)
deriving Repr, DecidableEq

/-- Model of enum ValueOrReference from src/resources.rs. -/
inductive ValueOrReference where
  | value (v : String)
  | reference (r : Reference)
deriving Repr, DecidableEq

/-- Model of a core/v1 ConfigMap: its optional string data map. -/
structure ConfigMapObj where
  data : Option (List (String × String))
deriving Repr, DecidableEq

/-- Model of a core/v1 Secret: optional string_data and optional raw byte data. -/
structure SecretObj where
  string_data : Option (List (String × String))
  data : Option (List (String × List Nat))
deriving Repr, DecidableEq

/-- The slice of the orchestrator store that reference lookup reads:
config maps and secrets keyed by (namespace, name). -/
structure Cluster where
  config_maps : List ((String × String) × ConfigMapObj)
  secrets : List ((String × String) × SecretObj)
deriving Repr, DecidableEq

def clusterGetConfigMap (c : Cluster) (ns name : String) : Option ConfigMapObj :=
  alistLookup c.config_maps (ns, name)

def clusterGetSecret (c : Cluster) (ns name : String) : Option SecretObj :=
  alistLookup c.secrets (ns, name)

/-- Shallow embedding of Reference::lookup in src/resources.rs.  The external
decoders String::from_utf8 and BASE64_STANDARD.decode are parameters.  A kube
Api::get of a missing object returns an error which the `?` operator
propagates, so an absent referenced object yields `Except.error`; an absent
key inside a present object yields `Except.ok none`.  For secrets the value is
taken from string_data first, then from data with utf8 decoding first and
base64-then-utf8 decoding as fallback; an undecodable payload yields none. -/
def Reference.lookup (utf8Decode : List Nat → Option String)
    (base64Decode : List Nat → Option (List Nat))
    (cluster : Cluster) (r : Reference) (ns : String) : Except String (Option String) :=
  match r with
  | .configMap selector =>
    match clusterGetConfigMap cluster ns selector.name with
    | none => .error "kube get: not found"
    | some config_map =>
        .ok (config_map.data.bind (fun data => alistLookup data selector.key))
  | .secret selector =>
    match clusterGetSecret cluster ns selector.name with
    | none => .error "kube get: not found"
    | some sec =>
        let fromData :=
          sec.data.bind (fun data =>
            (alistLookup data selector.key).bind (fun bytes =>
              match utf8Decode bytes with
              | some decoded => some decoded
              | none =>
                match (base64Decode bytes).bind utf8Decode with
                | some decoded => some decoded
                | none => none))
        let result :=
          match sec.string_data.bind (fun data => alistLookup data selector.key) with
          | some v2 => some v2
          | none => fromData
        .ok result

/-- Shallow embedding of ValueOrReference::lookup in src/resources.rs. -/
def ValueOrReference.lookup (utf8Decode : List Nat → Option String)
    (base64Decode : List Nat → Option (List Nat))
    (cluster : Cluster) (v : ValueOrReference) (ns : String) : Except String (Option String) :=
  match v with
  | .value v2 => .ok (some v2)
  | .reference r2 => r2.lookup utf8Decode base64Decode cluster ns

-- ============================================================
-- Cloudflare API client with caches (src/dns/cloudflare.rs)
-- ============================================================

/-- The fields of a provider DNS record that the operator reads or writes
(struct DnsRecordInfo in src/dns/cloudflare.rs). -/
structure DnsRecordInfo where
  id : String
  name : String
  content : String
  record_type : String
  ttl : Int
  comment : Option String
  tags : List String
  proxied : Bool
deriving Repr, DecidableEq

/-- A provider zone as returned by the zone listing (struct AccountInfo). -/
structure AccountInfo where
  id : String
  name : String
deriving Repr, DecidableEq

/-- Model of enum Zone in src/dns/cloudflare.rs. -/
inductive Zone where
  | Identifier (id : String)
  | Name (name : String)
deriving Repr, DecidableEq

/-- Arguments of create_dns_record / update_dns_record_and_wait
(struct CreateRecordArgs). -/
structure CreateRecordArgs where
  zone : Zone
  name : String
  record_type : RecordType
  content : String
  comment : Option String
  ttl : Option Int
deriving Repr, DecidableEq

/-- One HTTP request issued against the Cloudflare API. -/
inductive ApiCall where
  | listZonesFetch
  | listRecordsFetch (zone : String)
  | createRecord (zone : String) (name content : String)
  | deleteRecord (zone : String) (id : String)
deriving Repr, DecidableEq

/-- Provider write (mutating) calls are record creations and deletions. -/
def ApiCall.isWrite : ApiCall → Bool
  | .createRecord .. => true
  | .deleteRecord .. => true
  | _ => false

/-- The provider write calls contained in a trace. -/
def writeCalls (tr : List ApiCall) : List ApiCall :=
  tr.filter ApiCall.isWrite

/-- State of the CloudflareApi client together with the provider it talks to.
`zones` and `provider` are the provider-side truth; the two cache fields mirror
list_zone_cache and list_dns_records_cache of struct CloudflareApi; `trace`
records every HTTP request issued; `failSchedule` is the outcome of the
successive HTTP requests (true = the request fails), empty meaning every
request succeeds; `nextId` feeds the util::id() generator. -/
structure CfState where
  zones : List AccountInfo
  provider : List (String × List DnsRecordInfo)
  list_zone_cache : Option (Nat × List AccountInfo)
  list_dns_records_cache : List (String × (Nat × List DnsRecordInfo))
  failSchedule : List Bool
  nextId : Nat
  trace : List ApiCall
deriving Repr, DecidableEq

/-- Cache TTL of list_dns_records: Duration::minutes(1), in seconds. -/
def RECORD_CACHE_DURATION : Nat := 60

/-- Cache TTL of list_zones: Duration::minutes(5), in seconds. -/
def ZONE_CACHE_DURATION : Nat := 300

/-- Pop the outcome of the next HTTP request from the schedule (false =
success when the schedule is exhausted). -/
def takeRequestOutcome (s : CfState) : Bool × CfState :=
  match s.failSchedule with
  | [] => (false, s)
  | f :: rest => (f, { s with failSchedule := rest })

/-- Model of util::id(): a fresh record identifier. -/
def utilId (n : Nat) : String :=
  "id-" ++ toString n

/-- Shallow embedding of CloudflareApi::invalidate_dns_record_cache. -/
def invalidate_dns_record_cache (s : CfState) (zone_identifier : String) : CfState :=
  { s with list_dns_records_cache := alistErase s.list_dns_records_cache zone_identifier }

/-- The cache-miss path of list_zones: issue the GET, and on success cache and
return the provider's zone list. -/
def fetchZones (s : CfState) (now : Nat) : Except String (List AccountInfo) × CfState :=
  let s1 := { s with trace := s.trace ++ [ApiCall.listZonesFetch] }
  let (fail, s2) := takeRequestOutcome s1
  if fail then (.error "cloudflare api error", s2)
  else (.ok s2.zones, { s2 with list_zone_cache := some (now, s2.zones) })

/-- Shallow embedding of CloudflareApi::list_zones with its 5-minute cache. -/
def list_zones (s : CfState) (now : Nat) : Except String (List AccountInfo) × CfState :=
  match s.list_zone_cache with
  | some (time, zones) =>
    if now - time < ZONE_CACHE_DURATION then (.ok zones, s)
    else fetchZones s now
  | none => fetchZones s now

/-- The cache-miss path of list_dns_records: issue the GET, and on success
cache and return the zone's records. -/
def fetchRecords (s : CfState) (now : Nat) (zone_identifier : String) :
    Except String (List DnsRecordInfo) × CfState :=
  let s1 := { s with trace := s.trace ++ [ApiCall.listRecordsFetch zone_identifier] }
  let (fail, s2) := takeRequestOutcome s1
  if fail then (.error "cloudflare api error", s2)
  else
    let records := (alistLookup s2.provider zone_identifier).getD []
    (.ok records,
     { s2 with list_dns_records_cache :=
         alistInsert s2.list_dns_records_cache zone_identifier (now, records) })

/-- Shallow embedding of CloudflareApi::list_dns_records with its 1-minute
per-zone cache. -/
def list_dns_records (s : CfState) (now : Nat) (zone_identifier : String) :
    Except String (List DnsRecordInfo) × CfState :=
  match alistLookup s.list_dns_records_cache zone_identifier with
  | some (time, records) =>
    if now - time < RECORD_CACHE_DURATION then (.ok records, s)
    else fetchRecords s now zone_identifier
  | none => fetchRecords s now zone_identifier

/-- Shallow embedding of Zone::lookup_id: an identifier passes through, a name
is resolved through list_zones by first exact name match. -/
def Zone.lookup_id (z : Zone) (s : CfState) (now : Nat) :
    Except String (Option String) × CfState :=
  match z with
  | .Identifier id => (.ok (some id), s)
  | .Name name =>
    match list_zones s now with
    | (.error e, s2) => (.error e, s2)
    | (.ok accounts, s2) =>
        (.ok ((accounts.find? (fun it => it.name == name)).map (fun it => it.id)), s2)

/-- The DnsRecordInfo the provider stores and returns for a creation request
(id from util::id(), remaining fields from the request payload). -/
def createdRecord (n : Nat) (args : CreateRecordArgs) : DnsRecordInfo :=
  { id := utilId n, name := args.name, content := args.content,
    record_type := args.record_type.toName, ttl := args.ttl.getD 1,
    comment := args.comment, tags := [], proxied := false }

/-- Shallow embedding of CloudflareApi::create_dns_record: resolve the zone,
issue the POST, then invalidate the zone's record cache on BOTH outcomes (the
result is held in a variable across the invalidation before being returned). -/
def create_dns_record (s : CfState) (now : Nat) (args : CreateRecordArgs) :
    Except String DnsRecordInfo × CfState :=
  match args.zone.lookup_id s now with
  | (.error e, s2) => (.error e, s2)
  | (.ok none, s2) => (.error "zone not found", s2)
  | (.ok (some zone_identifier), s2) =>
    let id := s2.nextId
    let s3 := { s2 with nextId := s2.nextId + 1,
                        trace := s2.trace ++ [ApiCall.createRecord zone_identifier args.name args.content] }
    let (fail, s4) := takeRequestOutcome s3
    let (result, s5) :=
      if fail then ((Except.error "cloudflare api error" : Except String DnsRecordInfo), s4)
      else
        let record := createdRecord id args
        let prev := (alistLookup s4.provider zone_identifier).getD []
        ((Except.ok record : Except String DnsRecordInfo),
         { s4 with provider := alistInsert s4.provider zone_identifier (prev ++ [record]) })
    (result, invalidate_dns_record_cache s5 zone_identifier)

/-- Shallow embedding of CloudflareApi::delete_dns_record: issue the DELETE;
a failed request propagates with `?` BEFORE the cache invalidation, so only
the success path invalidates the zone's record cache. -/
def delete_dns_record (s : CfState) (zone_identifier : String) (id : String) :
    Except String Unit × CfState :=
  let s1 := { s with trace := s.trace ++ [ApiCall.deleteRecord zone_identifier id] }
  let (fail, s2) := takeRequestOutcome s1
  if fail then (.error "cloudflare api error", s2)
  else
    let prev := (alistLookup s2.provider zone_identifier).getD []
    let s3 := { s2 with provider :=
                  alistInsert s2.provider zone_identifier (prev.filter (fun r => r.id != id)) }
    (.ok (), invalidate_dns_record_cache s3 zone_identifier)

/-- Shallow embedding of CloudflareApi::update_dns_record_and_wait: resolve
the zone, list the zone's records, take the FIRST record whose name equals the
requested name; if its content equals the requested content return it
unchanged; otherwise delete it and fall through to creation; with no name
match create directly; finally invalidate the zone's record cache again. -/
def update_dns_record_and_wait (s : CfState) (now : Nat) (args : CreateRecordArgs) :
    Except String DnsRecordInfo × CfState :=
  match args.zone.lookup_id s now with
  | (.error e, s2) => (.error e, s2)
  | (.ok none, s2) => (.error "zone not found", s2)
  | (.ok (some zone_id), s2) =>
    match list_dns_records s2 now zone_id with
    | (.error e, s3) => (.error e, s3)
    | (.ok dns_records, s3) =>
      let createPath := fun (st : CfState) =>
        match create_dns_record st now args with
        | (.error e, st2) => ((Except.error e : Except String DnsRecordInfo), st2)
        | (.ok record, st2) => (.ok record, invalidate_dns_record_cache st2 zone_id)
      match dns_records.find? (fun record => record.name == args.name) with
      | some existing =>
        if existing.content == args.content then (.ok existing, s3)
        else
          match delete_dns_record s3 zone_id existing.id with
          | (.error e, s4) => (.error e, s4)
          | (.ok _, s4) => createPath s4
      | none => createPath s3

-- ============================================================
-- Cleanup (src/reconcile.rs)
-- ============================================================

/-- Shallow embedding of cleanup in src/reconcile.rs: require a metadata name,
return Ok when the resource has no status, otherwise call delete_dns_record
with exactly the zone id and record id persisted in the status; a delete
failure is only logged and cleanup still returns Ok.  No cluster object,
secret, or spec content is consulted. -/
def cleanup (resource : CloudflareDNSRecord) (s : CfState) : Except String Unit × CfState :=
  match resource.metadata_name with
  | none => (.error "missing name", s)
  | some _ =>
    match resource.status with
    | none => (.ok (), s)
    | some status =>
      match delete_dns_record s status.zone_id status.record_id with
      | (.error _, s2) => (.ok (), s2)
      | (.ok _, s2) => (.ok (), s2)

-- ============================================================
-- Theorems
-- ============================================================

/-- C5 (code bug): the selection policy is NOT total on the empty candidate
list.  With no record-type hint the first match arm returns none, but with an
A or AAAA hint (and likewise any other hint) control reaches a multi-ip arm
whose eagerly evaluated `ips[0]` indexes an empty slice and panics: the code
contradicts the intended "zero candidates → none with a warning" behaviour
that its own `([], None)` arm implements. -/
theorem C5_select_ip_empty_list :
    select_ip [] none = SelectResult.returns none
    ∧ select_ip [] (some RecordType.A) = SelectResult.panics
    ∧ select_ip [] (some RecordType.AAAA) = SelectResult.panics
    ∧ select_ip [] (some RecordType.CNAME) = SelectResult.panics := by
  refine ⟨rfl, rfl, rfl, rfl⟩

/-- C4 counterexample: two non-(Kube-409/404) reconcile errors refute the
claim.  A Deletion error is absorbed (reconcile returns success with the
normal 5-minute requeue) although the claim says every error other than a
409/404 propagates to the failure policy; and a provider (Cloudflare) API
error — which reaches the handler as the eyre-based Other variant, carrying
its HTTP status only inside the message string — propagates even when that
status is 409, although the claim says provider 409s are absorbed. -/
theorem C4_counterexample :
    handle_reconcile_result (Except.error ReconcileError.deletion)
      = Except.ok { requeue_secs := 300 }
    ∧ ReconcileError.deletion ≠ ReconcileError.kube (KubeError.api 409)
    ∧ ReconcileError.deletion ≠ ReconcileError.kube (KubeError.api 404)
    ∧ handle_reconcile_result
        (Except.error (ReconcileError.other "cloudflare api error: status=409"))
      = Except.error (ReconcileError.other "cloudflare api error: status=409") := by
  refine ⟨rfl, by decide, by decide, rfl⟩

/-- C4 amended: a KUBERNETES API error with code 409 or 404, and any deletion
error, is absorbed (the reconcile closure returns success and requeues on the
normal 5-minute schedule); every other error — Kubernetes API errors with any
other code, non-API Kubernetes errors, and all eyre/provider errors —
propagates to the failure policy, which requeues after 15 seconds. -/
theorem C4_reconcile_error_policy (c : Nat) (msg : String) (e : ReconcileError)
    (h409 : c ≠ 409) (h404 : c ≠ 404) :
    handle_reconcile_result (Except.ok ()) = Except.ok { requeue_secs := 300 }
    ∧ handle_reconcile_result (Except.error (ReconcileError.kube (KubeError.api 409)))
        = Except.ok { requeue_secs := 300 }
    ∧ handle_reconcile_result (Except.error (ReconcileError.kube (KubeError.api 404)))
        = Except.ok { requeue_secs := 300 }
    ∧ handle_reconcile_result (Except.error ReconcileError.deletion)
        = Except.ok { requeue_secs := 300 }
    ∧ handle_reconcile_result (Except.error (ReconcileError.kube (KubeError.api c)))
        = Except.error (ReconcileError.kube (KubeError.api c))
    ∧ handle_reconcile_result (Except.error (ReconcileError.kube KubeError.otherKube))
        = Except.error (ReconcileError.kube KubeError.otherKube)
    ∧ handle_reconcile_result (Except.error (ReconcileError.other msg))
        = Except.error (ReconcileError.other msg)
    ∧ error_policy e = { requeue_secs := 15 } := by
  refine ⟨rfl, rfl, rfl, rfl, ?_, rfl, rfl, rfl⟩
  unfold handle_reconcile_result
  split
  next heq => cases heq
  next e heq =>
    cases heq
    split
    next heq2 => cases heq2; exact absurd rfl h409
    next heq2 => cases heq2; exact absurd rfl h404
    next heq2 => cases heq2
    next => rfl

/-- Witness for C4_reconcile_error_policy at code 500. -/
theorem C4_reconcile_error_policy_witness :
    handle_reconcile_result (Except.error (ReconcileError.kube (KubeError.api 500)))
      = Except.error (ReconcileError.kube (KubeError.api 500))
    ∧ error_policy (ReconcileError.kube (KubeError.api 500)) = { requeue_secs := 15 } := by
  have h := C4_reconcile_error_policy 500 "x" (ReconcileError.kube (KubeError.api 500))
    (by decide) (by decide)
  exact ⟨h.2.2.2.2.1, h.2.2.2.2.2.2.2⟩

/-- C9: one check iteration stores the observed match boolean unconditionally
and emits a reconcile trigger exactly when it differs from the previously
stored boolean (defaulting to false for an absent key); a first matching
observation therefore emits one trigger and a repeated matching observation
emits none. -/
theorem C9_match_state_flip (m : List (String × Bool)) (ns name : String) (b : Bool) :
    (dns_check_step m ns name b).2 = ((alistLookup m (ns ++ ":" ++ name)).getD false != b)
    ∧ alistLookup (dns_check_step m ns name b).1 (ns ++ ":" ++ name) = some b
    ∧ (alistLookup m (ns ++ ":" ++ name) = none → (dns_check_step m ns name true).2 = true)
    ∧ (dns_check_step (dns_check_step m ns name true).1 ns name true).2 = false := by
  refine ⟨rfl, ?_, ?_, ?_⟩
  · simpa [dns_check_step] using alistLookup_insert_self m (ns ++ ":" ++ name) b
  · intro h
    simp [dns_check_step, h]
  · simp [dns_check_step, alistLookup_insert_self]

/-- Witness for C9_match_state_flip: first match emits, repeat does not. -/
theorem C9_match_state_flip_witness :
    (dns_check_step [] "default" "r" true).2 = true
    ∧ (dns_check_step (dns_check_step [] "default" "r" true).1 "default" "r" true).2 = false := by
  have h := C9_match_state_flip [] "default" "r" true
  exact ⟨h.2.2.1 rfl, h.2.2.2⟩

/-- Helper for C6: once a non-ready Ready condition has been recorded, a
further error_condition call at any time carries its transition time forward. -/
theorem error_condition_after_recorded (res : CloudflareDNSRecord) (e : Condition)
    (r2 m2 : String) (g2 : Option Int) (now2 : Nat)
    (htype : e.type_ = "Ready") (hstatus : (e.status == "True") = false) :
    (error_condition (withRecordedCondition res e) r2 m2 g2 now2).last_transition_time
      = e.last_transition_time := by
  simp [error_condition, withRecordedCondition, last_ready_condition, List.find?, htype, hstatus]

/-- Helper for C6: once a ready Ready condition has been recorded, a further
success_condition call at any time carries its transition time forward. -/
theorem success_condition_after_recorded (res : CloudflareDNSRecord) (e : Condition)
    (g2 : Option Int) (now2 : Nat)
    (htype : e.type_ = "Ready") (hstatus : (e.status == "True") = true) :
    (success_condition (withRecordedCondition res e) g2 now2).last_transition_time
      = e.last_transition_time := by
  simp [success_condition, withRecordedCondition, last_ready_condition, List.find?, htype, hstatus]

/-- C6: with a previously recorded Ready condition, the produced condition's
lastTransitionTime equals the call time exactly when the produced Ready
boolean (False for error_condition, True for success_condition) differs from
the previous condition's Ready boolean (its status string being "True"), and
otherwise the previous transition time is carried forward; reason and message
are always overwritten.  The last two conjuncts give the sequence property:
after recording the produced condition (as the apply path does), a repeated
call with the same Ready boolean and any reason keeps the timestamp. -/
theorem C6_condition_transition_time (res : CloudflareDNSRecord) (cs : List Condition)
    (prev : Condition) (r m r2 m2 : String) (g g2 : Option Int) (now now2 : Nat)
    (hcs : res.status.bind (fun st => st.conditions) = some cs)
    (hprev : cs.find? (fun c => c.type_ == "Ready") = some prev) :
    (error_condition res r m g now).last_transition_time
      = (if prev.status == "True" then now else prev.last_transition_time)
    ∧ (success_condition res g now).last_transition_time
      = (if prev.status == "True" then prev.last_transition_time else now)
    ∧ (error_condition res r m g now).reason = r
    ∧ (error_condition res r m g now).message = m
    ∧ (error_condition res r m g now).status = "False"
    ∧ (success_condition res g now).status = "True"
    ∧ (error_condition (withRecordedCondition res (error_condition res r m g now))
        r2 m2 g2 now2).last_transition_time
        = (error_condition res r m g now).last_transition_time
    ∧ (success_condition (withRecordedCondition res (success_condition res g now))
        g2 now2).last_transition_time
        = (success_condition res g now).last_transition_time := by
  refine ⟨?_, ?_, rfl, rfl, rfl, rfl, ?_, ?_⟩
  · simp [error_condition, last_ready_condition, hcs, hprev]
  · simp [success_condition, last_ready_condition, hcs, hprev]
  · exact error_condition_after_recorded res _ r2 m2 g2 now2 rfl rfl
  · exact success_condition_after_recorded res _ g2 now2 rfl rfl

/-- A previously recorded non-ready condition used by the C6 witness. -/
def prevCond : Condition :=
  { type_ := "Ready", status := "False", reason := "r0", message := "m0",
    last_transition_time := 5, observed_generation := none }

/-- A resource with prevCond recorded, used by the C6 witness. -/
def res0 : CloudflareDNSRecord :=
  { metadata_name := some "rec", metadata_namespace := some "default",
    status := some { record_id := "rid", zone_id := "zid", pending := false,
                     conditions := some [prevCond] } }

/-- Witness for C6_condition_transition_time: with a recorded not-ready
condition a repeated error keeps time 5 and a success flip moves it to 100. -/
theorem C6_condition_transition_time_witness :
    (error_condition res0 "a" "b" none 100).last_transition_time = 5
    ∧ (success_condition res0 none 100).last_transition_time = 100 := by
  have h := C6_condition_transition_time res0 [prevCond] prevCond
    "a" "b" "c" "d" none none 100 200 rfl rfl
  refine ⟨?_, ?_⟩
  · have h1 := h.1
    simpa [prevCond] using h1
  · have h2 := h.2.1
    simpa [prevCond] using h2

/-- The empty orchestrator store used by the C7 counterexample. -/
def emptyCluster : Cluster := { config_maps := [], secrets := [] }

/-- C7 counterexample: with the referenced config map absent from the store,
Reference::lookup performs Api::get whose not-found error the `?` operator
propagates, so the lookup returns an error and NOT Ok-with-no-value as the
claim states (the same holds for an absent secret). -/
theorem C7_counterexample :
    Reference.lookup (fun _ => none) (fun _ => none) emptyCluster
        (Reference.configMap { name := "cm", key := "k" }) "default"
      = Except.error "kube get: not found"
    ∧ Reference.lookup (fun _ => none) (fun _ => none) emptyCluster
        (Reference.configMap { name := "cm", key := "k" }) "default"
      ≠ Except.ok none
    ∧ Reference.lookup (fun _ => none) (fun _ => none) emptyCluster
        (Reference.secret { name := "sec", key := "k" }) "default"
      = Except.error "kube get: not found" := by
  refine ⟨rfl, ?_, rfl⟩
  intro h
  rw [show Reference.lookup (fun _ => none) (fun _ => none) emptyCluster
        (Reference.configMap { name := "cm", key := "k" }) "default"
      = Except.error "kube get: not found" from rfl] at h
  exact Except.noConfusion h

/-- C7 amended: an absent KEY inside a present config map or secret resolves
to Ok-with-no-value, and a secret payload that neither utf8-decodes nor
base64-then-utf8-decodes resolves to Ok-with-no-value; but an absent
referenced OBJECT makes the lookup return the propagated get error (which the
reconcile loop later downgrades for 404s) rather than none. -/
theorem C7_reference_lookup (u : List Nat → Option String)
    (b64 : List Nat → Option (List Nat)) (cluster : Cluster)
    (sel : KeySelector) (ns : String) :
    (∀ cm d, clusterGetConfigMap cluster ns sel.name = some cm →
      cm.data = some d → alistLookup d sel.key = none →
      Reference.lookup u b64 cluster (Reference.configMap sel) ns = Except.ok none)
    ∧ (∀ sec dd, clusterGetSecret cluster ns sel.name = some sec →
      sec.string_data = none → sec.data = some dd → alistLookup dd sel.key = none →
      Reference.lookup u b64 cluster (Reference.secret sel) ns = Except.ok none)
    ∧ (∀ sec dd bytes, clusterGetSecret cluster ns sel.name = some sec →
      sec.string_data = none → sec.data = some dd → alistLookup dd sel.key = some bytes →
      u bytes = none → (b64 bytes).bind u = none →
      Reference.lookup u b64 cluster (Reference.secret sel) ns = Except.ok none)
    ∧ (clusterGetConfigMap cluster ns sel.name = none →
      ∃ e, Reference.lookup u b64 cluster (Reference.configMap sel) ns = Except.error e)
    ∧ (clusterGetSecret cluster ns sel.name = none →
      ∃ e, Reference.lookup u b64 cluster (Reference.secret sel) ns = Except.error e) := by
  refine ⟨?_, ?_, ?_, ?_, ?_⟩
  · intro cm d hget hdata hkey
    simp [Reference.lookup, hget, hdata, hkey]
  · intro sec dd hget hsd hdata hkey
    simp [Reference.lookup, hget, hsd, hdata, hkey]
  · intro sec dd bytes hget hsd hdata hkey hu hb
    simp [Reference.lookup, hget, hsd, hdata, hkey, hu, hb]
  · intro hget
    exact ⟨"kube get: not found", by simp [Reference.lookup, hget]⟩
  · intro hget
    exact ⟨"kube get: not found", by simp [Reference.lookup, hget]⟩

/-- Concrete store for the C7 witness: a config map without the key, and a
secret whose payload for the key is undecodable under the witness decoders. -/
def witnessCluster : Cluster :=
  { config_maps := [(("default", "cm"), { data := some [("other", "v")] })],
    secrets := [(("default", "sec"), { string_data := none,
                                       data := some [("k", [255])] })] }

/-- Witness for C7_reference_lookup: key misses and an undecodable secret
payload resolve to none; absent objects resolve to errors. -/
theorem C7_reference_lookup_witness :
    Reference.lookup (fun _ => none) (fun _ => none) witnessCluster
        (Reference.configMap { name := "cm", key := "k" }) "default" = Except.ok none
    ∧ Reference.lookup (fun _ => none) (fun _ => none) witnessCluster
        (Reference.secret { name := "sec", key := "k" }) "default" = Except.ok none
    ∧ ∃ e, Reference.lookup (fun _ => none) (fun _ => none) witnessCluster
        (Reference.configMap { name := "absent", key := "k" }) "default" = Except.error e := by
  have h1 := (C7_reference_lookup (fun _ => none) (fun _ => none) witnessCluster
    { name := "cm", key := "k" } "default").1
  have h3 := (C7_reference_lookup (fun _ => none) (fun _ => none) witnessCluster
    { name := "sec", key := "k" } "default").2.2.1
  have h4 := (C7_reference_lookup (fun _ => none) (fun _ => none) witnessCluster
    { name := "absent", key := "k" } "default").2.2.2.1
  refine ⟨h1 { data := some [("other", "v")] } [("other", "v")] rfl rfl rfl, ?_, h4 rfl⟩
  exact h3 { string_data := none, data := some [("k", [255])] } [("k", [255])] [255]
    rfl rfl rfl rfl rfl rfl

/-- Trace effect of delete_dns_record: exactly one DELETE request is issued,
on the success and on the failure path alike. -/
theorem delete_dns_record_trace (s : CfState) (zone id : String) :
    (delete_dns_record s zone id).2.trace = s.trace ++ [ApiCall.deleteRecord zone id] := by
  unfold delete_dns_record takeRequestOutcome
  cases hs : s.failSchedule with
  | nil => simp [invalidate_dns_record_cache]
  | cons f rest => cases f <;> simp [invalidate_dns_record_cache]

/-- C8: for a resource with a metadata name and a persisted status, cleanup
issues exactly one provider call: the DELETE of precisely the zone id and
record id stored in that status (its type consults no cluster object, secret,
or spec content), and it returns Ok for EVERY request-outcome schedule, i.e.
also when the provider delete fails, so the finalizer is always removed. -/
theorem C8_cleanup (resource : CloudflareDNSRecord) (s : CfState) (n : String)
    (st : CloudflareDNSRecordStatus)
    (hname : resource.metadata_name = some n)
    (hstatus : resource.status = some st) :
    (cleanup resource s).1 = Except.ok ()
    ∧ (cleanup resource s).2.trace
        = s.trace ++ [ApiCall.deleteRecord st.zone_id st.record_id] := by
  have key : cleanup resource s
      = (Except.ok (), (delete_dns_record s st.zone_id st.record_id).2) := by
    unfold cleanup
    rw [hname, hstatus]
    simp only
    cases h2 : delete_dns_record s st.zone_id st.record_id with
    | mk res s2 => cases res <;> simp
  rw [key]
  exact ⟨rfl, delete_dns_record_trace s st.zone_id st.record_id⟩

/-- Witness for C8_cleanup: a resource whose delete fails (schedule [true])
still cleans up with Ok and one DELETE call of the persisted ids. -/
theorem C8_cleanup_witness :
    (cleanup { metadata_name := some "rec", metadata_namespace := some "default",
               status := some { record_id := "rid", zone_id := "zid", pending := false,
                                conditions := none } }
       { zones := [], provider := [], list_zone_cache := none,
         list_dns_records_cache := [], failSchedule := [true], nextId := 0,
         trace := [] }).1 = Except.ok ()
    ∧ (cleanup { metadata_name := some "rec", metadata_namespace := some "default",
                 status := some { record_id := "rid", zone_id := "zid", pending := false,
                                  conditions := none } }
       { zones := [], provider := [], list_zone_cache := none,
         list_dns_records_cache := [], failSchedule := [true], nextId := 0,
         trace := [] }).2.trace = [ApiCall.deleteRecord "zid" "rid"] := by
  have h := C8_cleanup
    { metadata_name := some "rec", metadata_namespace := some "default",
      status := some { record_id := "rid", zone_id := "zid", pending := false,
                       conditions := none } }
    { zones := [], provider := [], list_zone_cache := none,
      list_dns_records_cache := [], failSchedule := [true], nextId := 0,
      trace := [] }
    "rec" { record_id := "rid", zone_id := "zid", pending := false, conditions := none }
    rfl rfl
  exact ⟨h.1, h.2⟩

/-- A provider record used by the C3 counterexample cache entry. -/
def cRec : DnsRecordInfo :=
  { id := "r1", name := "d.example.com", content := "1.1.1.1", record_type := "A",
    ttl := 1, comment := none, tags := [], proxied := false }

/-- State for the C3 counterexample: the zone cache holds a stale view and the
next HTTP request is scheduled to fail. -/
def cState : CfState :=
  { zones := [], provider := [("z", [])], list_zone_cache := none,
    list_dns_records_cache := [("z", (0, [cRec]))],
    failSchedule := [true], nextId := 0, trace := [] }

/-- C3 counterexample: a FAILED delete_dns_record does not invalidate the
zone's record cache (the request error propagates with the `?` operator
before the invalidation line runs), so the immediately following
list_dns_records within the TTL window is served from the stale cache — it
returns the cached record even though the provider holds none, and issues no
fetch (the trace does not grow). -/
theorem C3_counterexample :
    (delete_dns_record cState "z" "r1").1 = Except.error "cloudflare api error"
    ∧ alistLookup (delete_dns_record cState "z" "r1").2.list_dns_records_cache "z"
        = some (0, [cRec])
    ∧ (list_dns_records (delete_dns_record cState "z" "r1").2 30 "z").1
        = Except.ok [cRec]
    ∧ alistLookup (delete_dns_record cState "z" "r1").2.provider "z" = some []
    ∧ (list_dns_records (delete_dns_record cState "z" "r1").2 30 "z").2.trace
        = (delete_dns_record cState "z" "r1").2.trace := by
  refine ⟨rfl, rfl, rfl, rfl, rfl⟩

/-- C3 amended: create_dns_record removes the zone's record-cache entry after
the call on BOTH outcomes (the result is held across the invalidation before
being returned), while delete_dns_record removes it only on the SUCCESS path
(a request failure propagates before the invalidation); whenever the entry
has been removed, the next list_dns_records for that zone takes the fetch
path even within the TTL window. -/
theorem C3_cache_invalidation (s : CfState) (now now2 : Nat) (args : CreateRecordArgs)
    (zone_id : String) (id : String) (hz : args.zone = Zone.Identifier zone_id) :
    alistLookup (create_dns_record s now args).2.list_dns_records_cache zone_id = none
    ∧ (∀ u s2, delete_dns_record s zone_id id = (Except.ok u, s2) →
        alistLookup s2.list_dns_records_cache zone_id = none)
    ∧ (∀ s2 : CfState, alistLookup s2.list_dns_records_cache zone_id = none →
        list_dns_records s2 now2 zone_id = fetchRecords s2 now2 zone_id) := by
  refine ⟨?_, ?_, ?_⟩
  · unfold create_dns_record
    rw [hz]
    simp only [Zone.lookup_id]
    simp [invalidate_dns_record_cache, alistLookup_erase_self]
  · intro u s2 hdel
    unfold delete_dns_record takeRequestOutcome at hdel
    simp only at hdel
    cases hs : s.failSchedule with
    | nil =>
      rw [hs] at hdel
      simp only at hdel
      have h2 := congrArg Prod.snd hdel
      simp only at h2
      rw [← h2]
      simp [invalidate_dns_record_cache, alistLookup_erase_self]
    | cons f rest =>
      rw [hs] at hdel
      cases f with
      | true => simp at hdel
      | false =>
        simp only at hdel
        have h2 := congrArg Prod.snd hdel
        simp only at h2
        rw [← h2]
        simp [invalidate_dns_record_cache, alistLookup_erase_self]
  · intro s2 hmiss
    unfold list_dns_records
    rw [hmiss]

/-- State for the C3 witness: provider healthy, cache entry present. -/
def wState : CfState :=
  { zones := [], provider := [("z", [cRec])], list_zone_cache := none,
    list_dns_records_cache := [("z", (0, [cRec]))],
    failSchedule := [], nextId := 0, trace := [] }

/-- Arguments for the C3 witness creation. -/
def wArgs : CreateRecordArgs :=
  { zone := Zone.Identifier "z", name := "d.example.com", record_type := RecordType.A,
    content := "1.1.1.1", comment := none, ttl := none }

/-- Witness for C3_cache_invalidation: on the healthy schedule, creation and
successful deletion drop the cache entry and the next listing fetches. -/
theorem C3_cache_invalidation_witness :
    alistLookup (create_dns_record wState 0 wArgs).2.list_dns_records_cache "z" = none
    ∧ alistLookup (delete_dns_record wState "z" "r1").2.list_dns_records_cache "z" = none
    ∧ list_dns_records (delete_dns_record wState "z" "r1").2 30 "z"
        = fetchRecords (delete_dns_record wState "z" "r1").2 30 "z" := by
  have h := C3_cache_invalidation wState 0 30 wArgs "z" "r1" rfl
  have hdel : delete_dns_record wState "z" "r1"
      = (Except.ok (), (delete_dns_record wState "z" "r1").2) := rfl
  have h2 := h.2.1 () (delete_dns_record wState "z" "r1").2 hdel
  exact ⟨h.1, h2, h.2.2 (delete_dns_record wState "z" "r1").2 h2⟩

theorem writeCalls_append (a b : List ApiCall) :
    writeCalls (a ++ b) = writeCalls a ++ writeCalls b := by
  simp [writeCalls, List.filter_append]

/-- A record-listing fetch issues no provider write and leaves the provider
state unchanged. -/
theorem fetchRecords_effects (s : CfState) (now : Nat) (z : String) :
    writeCalls (fetchRecords s now z).2.trace = writeCalls s.trace
    ∧ (fetchRecords s now z).2.provider = s.provider := by
  unfold fetchRecords takeRequestOutcome
  cases hs : s.failSchedule with
  | nil => simp [writeCalls_append, writeCalls, ApiCall.isWrite]
  | cons f rest => cases f <;> simp [writeCalls_append, writeCalls, ApiCall.isWrite]

/-- list_dns_records issues no provider write and leaves the provider state
unchanged (it either answers from cache or fetches). -/
theorem list_dns_records_effects (s : CfState) (now : Nat) (z : String) :
    writeCalls (list_dns_records s now z).2.trace = writeCalls s.trace
    ∧ (list_dns_records s now z).2.provider = s.provider := by
  unfold list_dns_records
  cases hc : alistLookup s.list_dns_records_cache z with
  | none => exact fetchRecords_effects s now z
  | some tv =>
    cases tv with
    | mk t recs =>
      by_cases ht : now - t < RECORD_CACHE_DURATION
      · simp [ht]
      · simp only [ht, if_false]
        exact fetchRecords_effects s now z

/-- Evaluation of fetchRecords on the all-success schedule. -/
theorem fetchRecords_ok_eq (s : CfState) (now : Nat) (z : String)
    (hsched : s.failSchedule = []) :
    fetchRecords s now z
      = (Except.ok ((alistLookup s.provider z).getD []),
         { s with trace := s.trace ++ [ApiCall.listRecordsFetch z],
                  list_dns_records_cache :=
                    alistInsert s.list_dns_records_cache z
                      (now, (alistLookup s.provider z).getD []) }) := by
  unfold fetchRecords takeRequestOutcome
  simp [hsched]

/-- Evaluation of list_dns_records on a cache miss with the all-success
schedule. -/
theorem list_dns_records_miss_ok_eq (s : CfState) (now : Nat) (z : String)
    (hmiss : alistLookup s.list_dns_records_cache z = none)
    (hsched : s.failSchedule = []) :
    list_dns_records s now z
      = (Except.ok ((alistLookup s.provider z).getD []),
         { s with trace := s.trace ++ [ApiCall.listRecordsFetch z],
                  list_dns_records_cache :=
                    alistInsert s.list_dns_records_cache z
                      (now, (alistLookup s.provider z).getD []) }) := by
  unfold list_dns_records
  rw [hmiss]
  exact fetchRecords_ok_eq s now z hsched

/-- Evaluation of list_dns_records on a fresh cache hit. -/
theorem list_dns_records_hit_eq (s : CfState) (now t : Nat) (z : String)
    (recs : List DnsRecordInfo)
    (hhit : alistLookup s.list_dns_records_cache z = some (t, recs))
    (ht : now - t < RECORD_CACHE_DURATION) :
    list_dns_records s now z = (Except.ok recs, s) := by
  unfold list_dns_records
  rw [hhit]
  simp [ht]

/-- Evaluation of delete_dns_record on the all-success schedule. -/
theorem delete_dns_record_ok_eq (s : CfState) (z id : String)
    (hsched : s.failSchedule = []) :
    delete_dns_record s z id
      = (Except.ok (),
         { s with trace := s.trace ++ [ApiCall.deleteRecord z id],
                  provider := alistInsert s.provider z
                    (((alistLookup s.provider z).getD []).filter (fun r => r.id != id)),
                  list_dns_records_cache := alistErase s.list_dns_records_cache z }) := by
  unfold delete_dns_record takeRequestOutcome invalidate_dns_record_cache
  simp [hsched]

/-- Evaluation of create_dns_record with a zone identifier on the all-success
schedule. -/
theorem create_dns_record_ok_eq (s : CfState) (now : Nat) (args : CreateRecordArgs)
    (z : String) (hz : args.zone = Zone.Identifier z) (hsched : s.failSchedule = []) :
    create_dns_record s now args
      = (Except.ok (createdRecord s.nextId args),
         { s with nextId := s.nextId + 1,
                  trace := s.trace ++ [ApiCall.createRecord z args.name args.content],
                  provider := alistInsert s.provider z
                    (((alistLookup s.provider z).getD []) ++ [createdRecord s.nextId args]),
                  list_dns_records_cache := alistErase s.list_dns_records_cache z }) := by
  unfold create_dns_record takeRequestOutcome invalidate_dns_record_cache
  rw [hz]
  simp only [Zone.lookup_id]
  simp [hsched]

/-- If a zone listing holds at most one record with a given name, every
name-matching record in it is the one find? returns. -/
theorem named_record_unique (l : List DnsRecordInfo) (n : String) (r : DnsRecordInfo)
    (hcount : (l.filter (fun x => x.name == n)).length ≤ 1)
    (hfind : l.find? (fun x => x.name == n) = some r) :
    ∀ x ∈ l, (x.name == n) = true → x = r := by
  intro x hx hpx
  have hrmem : r ∈ l := List.mem_of_find?_eq_some hfind
  have hrp : (r.name == n) = true := by
    have h2 := List.find?_some hfind
    simpa using h2
  have hxf : x ∈ l.filter (fun x => x.name == n) := List.mem_filter.mpr ⟨hx, hpx⟩
  have hrf : r ∈ l.filter (fun x => x.name == n) := List.mem_filter.mpr ⟨hrmem, hrp⟩
  match hl : l.filter (fun x => x.name == n) with
  | [] =>
    rw [hl] at hxf
    exact absurd hxf (List.not_mem_nil x)
  | [a] =>
    rw [hl] at hxf hrf
    have hxa : x = a := List.mem_singleton.mp hxf
    have hra : r = a := List.mem_singleton.mp hrf
    rw [hxa, hra]
  | a :: b :: rest =>
    rw [hl] at hcount
    simp at hcount

/-- After removing every record with the id of the unique name match, no
record of that name is left. -/
theorem find?_after_id_filter (l : List DnsRecordInfo) (n : String) (r : DnsRecordInfo)
    (hcount : (l.filter (fun x => x.name == n)).length ≤ 1)
    (hfind : l.find? (fun x => x.name == n) = some r) :
    (l.filter (fun x => x.id != r.id)).find? (fun x => x.name == n) = none := by
  rw [List.find?_eq_none]
  intro x hx hpx
  obtain ⟨hmem, hid⟩ := List.mem_filter.mp hx
  have hxr : x = r := named_record_unique l n r hcount hfind x hmem hpx
  rw [hxr] at hid
  simp at hid

/-- The upsert no-op path: with the zone resolved by identifier and the
listing succeeding, a first name match with equal content is returned as-is
and the state is exactly the post-listing state. -/
theorem upsert_first_match_noop (s : CfState) (now : Nat) (args : CreateRecordArgs)
    (zone_id : String) (records : List DnsRecordInfo) (s1 : CfState) (r : DnsRecordInfo)
    (hz : args.zone = Zone.Identifier zone_id)
    (hlist : list_dns_records s now zone_id = (Except.ok records, s1))
    (hfind : records.find? (fun rec => rec.name == args.name) = some r)
    (hcontent : r.content = args.content) :
    update_dns_record_and_wait s now args = (Except.ok r, s1) := by
  unfold update_dns_record_and_wait
  rw [hz]
  simp only [Zone.lookup_id]
  rw [hlist]
  simp only [hfind, hcontent]
  simp

/-- The upsert replace path: a first name match with different content is
deleted and a new record is created, in that order; the conclusions list the
returned record and the properties of the final state that later calls need. -/
theorem upsert_first_match_replace (s : CfState) (now : Nat) (args : CreateRecordArgs)
    (zone_id : String) (records : List DnsRecordInfo) (s1 : CfState) (r : DnsRecordInfo)
    (hz : args.zone = Zone.Identifier zone_id)
    (hlist : list_dns_records s now zone_id = (Except.ok records, s1))
    (hfind : records.find? (fun rec => rec.name == args.name) = some r)
    (hcontent : r.content ≠ args.content)
    (hsched : s1.failSchedule = []) :
    ∃ s2, update_dns_record_and_wait s now args
        = (Except.ok (createdRecord s1.nextId args), s2)
      ∧ s2.trace = s1.trace ++ [ApiCall.deleteRecord zone_id r.id,
                                ApiCall.createRecord zone_id args.name args.content]
      ∧ alistLookup s2.provider zone_id
          = some ((((alistLookup s1.provider zone_id).getD []).filter
                     (fun rec => rec.id != r.id)) ++ [createdRecord s1.nextId args])
      ∧ alistLookup s2.list_dns_records_cache zone_id = none
      ∧ s2.failSchedule = []
      ∧ s2.nextId = s1.nextId + 1 := by
  have hbeq : (r.content == args.content) = false := by
    simpa using hcontent
  have hdel := delete_dns_record_ok_eq s1 zone_id r.id hsched
  unfold update_dns_record_and_wait
  rw [hz]
  simp only [Zone.lookup_id]
  rw [hlist]
  simp only [hfind, hbeq]
  rw [hdel]
  simp only
  rw [create_dns_record_ok_eq _ now args zone_id hz (by simpa using hsched)]
  simp only [invalidate_dns_record_cache]
  refine ⟨_, rfl, ?_, ?_, ?_, ?_, ?_⟩
  · simp
  · simp [alistLookup_insert_self]
  · simp [alistLookup_erase_self]
  · simp [hsched]
  · simp

/-- The upsert creation path: with no name match in the listing, the record is
created directly with no delete. -/
theorem upsert_no_match_create (s : CfState) (now : Nat) (args : CreateRecordArgs)
    (zone_id : String) (records : List DnsRecordInfo) (s1 : CfState)
    (hz : args.zone = Zone.Identifier zone_id)
    (hlist : list_dns_records s now zone_id = (Except.ok records, s1))
    (hfind : records.find? (fun rec => rec.name == args.name) = none)
    (hsched : s1.failSchedule = []) :
    ∃ s2, update_dns_record_and_wait s now args
        = (Except.ok (createdRecord s1.nextId args), s2)
      ∧ s2.trace = s1.trace ++ [ApiCall.createRecord zone_id args.name args.content]
      ∧ alistLookup s2.provider zone_id
          = some (((alistLookup s1.provider zone_id).getD [])
                   ++ [createdRecord s1.nextId args])
      ∧ alistLookup s2.list_dns_records_cache zone_id = none
      ∧ s2.failSchedule = []
      ∧ s2.nextId = s1.nextId + 1 := by
  unfold update_dns_record_and_wait
  rw [hz]
  simp only [Zone.lookup_id]
  rw [hlist]
  simp only [hfind]
  rw [create_dns_record_ok_eq s1 now args zone_id hz hsched]
  simp only [invalidate_dns_record_cache]
  refine ⟨_, rfl, ?_, ?_, ?_, ?_, ?_⟩
  · simp
  · simp [alistLookup_insert_self]
  · simp [alistLookup_erase_self]
  · simp [hsched]
  · simp

/-- Properties of a successful cache-miss listing, stated abstractly. -/
theorem list_dns_records_miss_ok_props (s : CfState) (now : Nat) (z : String)
    (hmiss : alistLookup s.list_dns_records_cache z = none)
    (hsched : s.failSchedule = []) :
    ∃ s1, list_dns_records s now z
        = (Except.ok ((alistLookup s.provider z).getD []), s1)
      ∧ s1.provider = s.provider
      ∧ s1.failSchedule = []
      ∧ s1.nextId = s.nextId
      ∧ alistLookup s1.list_dns_records_cache z
          = some (now, (alistLookup s.provider z).getD [])
      ∧ s1.trace = s.trace ++ [ApiCall.listRecordsFetch z] := by
  rw [list_dns_records_miss_ok_eq s now z hmiss hsched]
  exact ⟨_, rfl, rfl, hsched, rfl, alistLookup_insert_self _ _ _, rfl⟩

/-- Properties of a successful stale-cache listing (fetch path). -/
theorem list_dns_records_stale_ok_props (s : CfState) (now t : Nat) (z : String)
    (recs : List DnsRecordInfo)
    (hhit : alistLookup s.list_dns_records_cache z = some (t, recs))
    (ht : ¬ now - t < RECORD_CACHE_DURATION)
    (hsched : s.failSchedule = []) :
    ∃ s1, list_dns_records s now z
        = (Except.ok ((alistLookup s.provider z).getD []), s1)
      ∧ writeCalls s1.trace = writeCalls s.trace := by
  unfold list_dns_records
  rw [hhit]
  simp only
  rw [if_neg ht]
  rw [fetchRecords_ok_eq s now z hsched]
  refine ⟨_, rfl, ?_⟩
  simp [writeCalls_append, writeCalls, ApiCall.isWrite]

/-- A second upsert call that starts on an invalidated cache and finds a
first name match with the requested content performs no provider write. -/
theorem upsert_second_call_noop (s2 : CfState) (t2 : Nat) (args : CreateRecordArgs)
    (zone_id : String) (r2 : DnsRecordInfo)
    (hz : args.zone = Zone.Identifier zone_id)
    (hmiss : alistLookup s2.list_dns_records_cache zone_id = none)
    (hsched : s2.failSchedule = [])
    (hfind : ((alistLookup s2.provider zone_id).getD []).find?
        (fun rec => rec.name == args.name) = some r2)
    (hcontent : r2.content = args.content) :
    ∃ s3, update_dns_record_and_wait s2 t2 args = (Except.ok r2, s3)
      ∧ writeCalls s3.trace = writeCalls s2.trace := by
  have hlist := list_dns_records_miss_ok_eq s2 t2 zone_id hmiss hsched
  refine ⟨_, upsert_first_match_noop s2 t2 args zone_id _ _ r2 hz hlist hfind hcontent, ?_⟩
  have h := (list_dns_records_effects s2 t2 zone_id).1
  rw [hlist] at h
  exact h

/-- C1 amended: the upsert compares against the FIRST listed record whose name
matches.  (a) If that first name match has content equal to the requested
content, update_dns_record_and_wait returns it unchanged and performs no
provider mutation (no delete, no create; the provider state is untouched).
(b) Calling it twice in a row with identical (zone, name, type, content) from
a state with no cached entry for the zone, a healthy provider, and at most one
listed record carrying the requested name, succeeds both times, issues NO
provider write call the second time (hence at most one), and returns a record
with the requested content both times. -/
theorem C1_idempotent_upsert :
    (∀ s now args zone_id records s1 r,
      args.zone = Zone.Identifier zone_id →
      list_dns_records s now zone_id = (Except.ok records, s1) →
      records.find? (fun rec => rec.name == args.name) = some r →
      r.content = args.content →
      update_dns_record_and_wait s now args = (Except.ok r, s1)
      ∧ writeCalls s1.trace = writeCalls s.trace
      ∧ s1.provider = s.provider)
    ∧ (∀ s t1 t2 args zone_id,
      args.zone = Zone.Identifier zone_id →
      alistLookup s.list_dns_records_cache zone_id = none →
      s.failSchedule = [] →
      (((alistLookup s.provider zone_id).getD []).filter
          (fun x => x.name == args.name)).length ≤ 1 →
      ∃ r1 s2 r2 s3,
        update_dns_record_and_wait s t1 args = (Except.ok r1, s2)
        ∧ update_dns_record_and_wait s2 t2 args = (Except.ok r2, s3)
        ∧ r1.content = args.content
        ∧ r2.content = args.content
        ∧ writeCalls s3.trace = writeCalls s2.trace) := by
  constructor
  · intro s now args zone_id records s1 r hz hlist hfind hcontent
    refine ⟨upsert_first_match_noop s now args zone_id records s1 r hz hlist hfind hcontent,
      ?_, ?_⟩
    · have h := (list_dns_records_effects s now zone_id).1
      rw [hlist] at h
      exact h
    · have h := (list_dns_records_effects s now zone_id).2
      rw [hlist] at h
      exact h
  · intro s t1 t2 args zone_id hz hmiss hsched hcount
    obtain ⟨s1, hlist1, hprov1, hsched1, hnext1, hcache1, htrace1⟩ :=
      list_dns_records_miss_ok_props s t1 zone_id hmiss hsched
    cases hfind : ((alistLookup s.provider zone_id).getD []).find?
        (fun rec => rec.name == args.name) with
    | none =>
      obtain ⟨s2, hupd1, htr2, hprov2, hcache2, hsched2, hnext2⟩ :=
        upsert_no_match_create s t1 args zone_id _ s1 hz hlist1 hfind hsched1
      have hfind2 : ((alistLookup s2.provider zone_id).getD []).find?
          (fun rec => rec.name == args.name) = some (createdRecord s1.nextId args) := by
        rw [hprov2, hprov1]
        simp [List.find?_append, hfind, List.find?, createdRecord]
      obtain ⟨s3, hupd2, hw3⟩ :=
        upsert_second_call_noop s2 t2 args zone_id _ hz hcache2 hsched2 hfind2 rfl
      exact ⟨_, s2, _, s3, hupd1, hupd2, rfl, rfl, hw3⟩
    | some r =>
      by_cases hbeq : (r.content == args.content) = true
      · have hcontent : r.content = args.content := by simpa using hbeq
        have hupd1 := upsert_first_match_noop s t1 args zone_id _ s1 r hz hlist1 hfind hcontent
        by_cases ht : t2 - t1 < RECORD_CACHE_DURATION
        · have hlist2 := list_dns_records_hit_eq s1 t2 t1 zone_id _ hcache1 ht
          have hupd2 := upsert_first_match_noop s1 t2 args zone_id _ s1 r hz hlist2 hfind hcontent
          exact ⟨r, s1, r, s1, hupd1, hupd2, hcontent, hcontent, rfl⟩
        · obtain ⟨s3, hlist2, hw⟩ :=
            list_dns_records_stale_ok_props s1 t2 t1 zone_id _ hcache1 ht hsched1
          have hfind2 : ((alistLookup s1.provider zone_id).getD []).find?
              (fun rec => rec.name == args.name) = some r := by
            rw [hprov1]
            exact hfind
          have hupd2 := upsert_first_match_noop s1 t2 args zone_id _ s3 r hz hlist2 hfind2 hcontent
          exact ⟨r, s1, r, s3, hupd1, hupd2, hcontent, hcontent, hw⟩
      · have hcontent : r.content ≠ args.content := by simpa using hbeq
        obtain ⟨s2, hupd1, htr2, hprov2, hcache2, hsched2, hnext2⟩ :=
          upsert_first_match_replace s t1 args zone_id _ s1 r hz hlist1 hfind hcontent hsched1
        have hfindF : (((alistLookup s1.provider zone_id).getD []).filter
            (fun rec => rec.id != r.id)).find? (fun rec => rec.name == args.name) = none := by
          rw [hprov1]
          exact find?_after_id_filter _ args.name r hcount hfind
        have hfind2 : ((alistLookup s2.provider zone_id).getD []).find?
            (fun rec => rec.name == args.name) = some (createdRecord s1.nextId args) := by
          rw [hprov2]
          simp only [Option.getD_some]
          rw [List.find?_append, hfindF]
          simp [List.find?, createdRecord]
        obtain ⟨s3, hupd2, hw3⟩ :=
          upsert_second_call_noop s2 t2 args zone_id _ hz hcache2 hsched2 hfind2 rfl
        exact ⟨_, s2, _, s3, hupd1, hupd2, rfl, rfl, hw3⟩

/-- First record of the duplicate-name zone of the C1 counterexample. -/
def dupRec1 : DnsRecordInfo :=
  { id := "r1", name := "www.example.com", content := "1.1.1.1", record_type := "A",
    ttl := 1, comment := none, tags := [], proxied := false }

/-- Second record of the duplicate-name zone: same name, the requested content. -/
def dupRec2 : DnsRecordInfo :=
  { id := "r2", name := "www.example.com", content := "2.2.2.2", record_type := "A",
    ttl := 1, comment := none, tags := [], proxied := false }

/-- Client state over a zone listing two records under the same name (legal in
DNS, e.g. round-robin A records). -/
def dupState : CfState :=
  { zones := [], provider := [("z", [dupRec1, dupRec2])], list_zone_cache := none,
    list_dns_records_cache := [], failSchedule := [], nextId := 0, trace := [] }

/-- An upsert request whose (name, content) pair the listing already contains. -/
def dupArgs : CreateRecordArgs :=
  { zone := Zone.Identifier "z", name := "www.example.com", record_type := RecordType.A,
    content := "2.2.2.2", comment := none, ttl := none }

/-- C1 counterexample: the zone's record listing contains a record (dupRec2)
with the requested name AND the requested content, yet the upsert — which
only inspects the FIRST record whose name matches (dupRec1, different
content) — deletes dupRec1 and creates a fresh record: provider mutations
happen and the matching record is not the one returned. -/
theorem C1_counterexample :
    dupRec2 ∈ [dupRec1, dupRec2]
    ∧ dupRec2.name = dupArgs.name
    ∧ dupRec2.content = dupArgs.content
    ∧ (list_dns_records dupState 0 "z").1 = Except.ok [dupRec1, dupRec2]
    ∧ writeCalls (update_dns_record_and_wait dupState 0 dupArgs).2.trace
        = [ApiCall.deleteRecord "z" "r1",
           ApiCall.createRecord "z" "www.example.com" "2.2.2.2"]
    ∧ (update_dns_record_and_wait dupState 0 dupArgs).1
        = Except.ok (createdRecord 0 dupArgs)
    ∧ createdRecord 0 dupArgs ≠ dupRec2 := by
  refine ⟨by simp, rfl, rfl, rfl, rfl, rfl, by decide⟩

/-- Single-record zone for the C1 witness. -/
def c1State : CfState :=
  { zones := [], provider := [("z", [dupRec1])], list_zone_cache := none,
    list_dns_records_cache := [], failSchedule := [], nextId := 0, trace := [] }

/-- Request matching dupRec1 exactly, for the C1 witness. -/
def c1Args : CreateRecordArgs :=
  { zone := Zone.Identifier "z", name := "www.example.com", record_type := RecordType.A,
    content := "1.1.1.1", comment := none, ttl := none }

/-- Witness for C1_idempotent_upsert on a one-record zone: the no-op part
returns the listed record, and the two successive calls both succeed with the
requested content and no write on the second call. -/
theorem C1_idempotent_upsert_witness :
    (update_dns_record_and_wait c1State 0 c1Args
        = (Except.ok dupRec1, (list_dns_records c1State 0 "z").2)
      ∧ writeCalls (list_dns_records c1State 0 "z").2.trace = writeCalls c1State.trace
      ∧ (list_dns_records c1State 0 "z").2.provider = c1State.provider)
    ∧ (∃ r1 s2 r2 s3,
        update_dns_record_and_wait c1State 0 c1Args = (Except.ok r1, s2)
        ∧ update_dns_record_and_wait s2 10 c1Args = (Except.ok r2, s3)
        ∧ r1.content = c1Args.content
        ∧ r2.content = c1Args.content
        ∧ writeCalls s3.trace = writeCalls s2.trace) := by
  constructor
  · exact C1_idempotent_upsert.1 c1State 0 c1Args "z" [dupRec1]
      (list_dns_records c1State 0 "z").2 dupRec1 rfl rfl rfl rfl
  · exact C1_idempotent_upsert.2 c1State 0 10 c1Args "z" rfl rfl rfl (by decide)

/-- C2 amended: the replace behaviour is keyed to the FIRST listed record
whose name matches.  (a) If that first name match has content different from
the requested content, the upsert issues exactly one delete — of THAT
record's id — followed by exactly one create, in that order, and the returned
record's content equals the requested content.  (b) If no listed record
carries the requested name, it creates directly with no delete. -/
theorem C2_content_change_replace :
    (∀ s now args zone_id records s1 r,
      args.zone = Zone.Identifier zone_id →
      list_dns_records s now zone_id = (Except.ok records, s1) →
      records.find? (fun rec => rec.name == args.name) = some r →
      r.content ≠ args.content →
      s1.failSchedule = [] →
      ∃ rec s2, update_dns_record_and_wait s now args = (Except.ok rec, s2)
        ∧ rec.content = args.content
        ∧ writeCalls s2.trace = writeCalls s.trace
            ++ [ApiCall.deleteRecord zone_id r.id,
                ApiCall.createRecord zone_id args.name args.content])
    ∧ (∀ s now args zone_id records s1,
      args.zone = Zone.Identifier zone_id →
      list_dns_records s now zone_id = (Except.ok records, s1) →
      records.find? (fun rec => rec.name == args.name) = none →
      s1.failSchedule = [] →
      ∃ rec s2, update_dns_record_and_wait s now args = (Except.ok rec, s2)
        ∧ rec.content = args.content
        ∧ writeCalls s2.trace = writeCalls s.trace
            ++ [ApiCall.createRecord zone_id args.name args.content]) := by
  constructor
  · intro s now args zone_id records s1 r hz hlist hfind hcontent hsched1
    obtain ⟨s2, hupd, htr, hprov, hcache, hsch, hnext⟩ :=
      upsert_first_match_replace s now args zone_id records s1 r hz hlist hfind hcontent hsched1
    refine ⟨_, s2, hupd, rfl, ?_⟩
    have hw1 := (list_dns_records_effects s now zone_id).1
    rw [hlist] at hw1
    rw [htr, writeCalls_append, hw1]
    rfl
  · intro s now args zone_id records s1 hz hlist hfind hsched1
    obtain ⟨s2, hupd, htr, hprov, hcache, hsch, hnext⟩ :=
      upsert_no_match_create s now args zone_id records s1 hz hlist hfind hsched1
    refine ⟨_, s2, hupd, rfl, ?_⟩
    have hw1 := (list_dns_records_effects s now zone_id).1
    rw [hlist] at hw1
    rw [htr, writeCalls_append, hw1]
    rfl

/-- First record of the C2 counterexample zone: carries the requested content. -/
def eqRec : DnsRecordInfo :=
  { id := "a1", name := "www.example.com", content := "9.9.9.9", record_type := "A",
    ttl := 1, comment := none, tags := [], proxied := false }

/-- Second record of the C2 counterexample zone: same name, stale content. -/
def staleRec : DnsRecordInfo :=
  { id := "a2", name := "www.example.com", content := "8.8.8.8", record_type := "A",
    ttl := 1, comment := none, tags := [], proxied := false }

/-- Client state over the two-record zone of the C2 counterexample. -/
def c2State : CfState :=
  { zones := [], provider := [("z", [eqRec, staleRec])], list_zone_cache := none,
    list_dns_records_cache := [], failSchedule := [], nextId := 0, trace := [] }

/-- The C2 counterexample request. -/
def c2Args : CreateRecordArgs :=
  { zone := Zone.Identifier "z", name := "www.example.com", record_type := RecordType.A,
    content := "9.9.9.9", comment := none, ttl := none }

/-- C2 counterexample: the listing contains a record (staleRec) with the
requested name but different content, so the claim demands exactly one delete
of it followed by one create; but the FIRST record with that name (eqRec)
already carries the requested content, so the code returns eqRec and issues
no write at all — staleRec is left in place. -/
theorem C2_counterexample :
    staleRec ∈ [eqRec, staleRec]
    ∧ staleRec.name = c2Args.name
    ∧ staleRec.content ≠ c2Args.content
    ∧ (list_dns_records c2State 0 "z").1 = Except.ok [eqRec, staleRec]
    ∧ (update_dns_record_and_wait c2State 0 c2Args).1 = Except.ok eqRec
    ∧ writeCalls (update_dns_record_and_wait c2State 0 c2Args).2.trace = [] := by
  refine ⟨by simp, rfl, by decide, rfl, rfl, rfl⟩

/-- One-stale-record zone for the C2 witness's replace half. -/
def c2wState : CfState :=
  { zones := [], provider := [("z", [staleRec])], list_zone_cache := none,
    list_dns_records_cache := [], failSchedule := [], nextId := 0, trace := [] }

/-- Empty zone for the C2 witness's create-direct half. -/
def c2eState : CfState :=
  { zones := [], provider := [("z", [])], list_zone_cache := none,
    list_dns_records_cache := [], failSchedule := [], nextId := 0, trace := [] }

/-- Witness for C2_content_change_replace: a differing record is replaced by
one delete plus one create; an absent name is created with no delete. -/
theorem C2_content_change_replace_witness :
    (∃ rec s2, update_dns_record_and_wait c2wState 0 c2Args = (Except.ok rec, s2)
      ∧ rec.content = c2Args.content
      ∧ writeCalls s2.trace
          = [ApiCall.deleteRecord "z" "a2",
             ApiCall.createRecord "z" "www.example.com" "9.9.9.9"])
    ∧ (∃ rec s2, update_dns_record_and_wait c2eState 0 c2Args = (Except.ok rec, s2)
      ∧ rec.content = c2Args.content
      ∧ writeCalls s2.trace = [ApiCall.createRecord "z" "www.example.com" "9.9.9.9"]) := by
  constructor
  · have h := C2_content_change_replace.1 c2wState 0 c2Args "z" [staleRec]
      (list_dns_records c2wState 0 "z").2 staleRec rfl rfl rfl (by decide) rfl
    simpa using h
  · have h := C2_content_change_replace.2 c2eState 0 c2Args "z" []
      (list_dns_records c2eState 0 "z").2 rfl rfl rfl rfl
    simpa using h

/-- C10 amended: the upsert's "already exists" check compares only the FIRST
name-matching listed record's content against the request.  When that first
name match has the requested content it is returned unchanged with no delete,
no create, and an untouched provider — even when its record type, TTL,
comment, AND tags all differ from the requested ones, so changing only those
fields in the desired spec never modifies the provider-side record. -/
theorem C10_compare_name_content_only (s : CfState) (now : Nat)
    (args : CreateRecordArgs) (zone_id : String) (records : List DnsRecordInfo)
    (s1 : CfState) (r : DnsRecordInfo)
    (hz : args.zone = Zone.Identifier zone_id)
    (hlist : list_dns_records s now zone_id = (Except.ok records, s1))
    (hfind : records.find? (fun rec => rec.name == args.name) = some r)
    (hcontent : r.content = args.content)
    (_htype : r.record_type ≠ args.record_type.toName)
    (_httl : args.ttl ≠ some r.ttl)
    (_hcomment : args.comment ≠ r.comment)
    (_htags : r.tags ≠ []) :
    update_dns_record_and_wait s now args = (Except.ok r, s1)
    ∧ writeCalls s1.trace = writeCalls s.trace
    ∧ s1.provider = s.provider := by
  refine ⟨upsert_first_match_noop s now args zone_id records s1 r hz hlist hfind hcontent,
    ?_, ?_⟩
  · have h := (list_dns_records_effects s now zone_id).1
    rw [hlist] at h
    exact h
  · have h := (list_dns_records_effects s now zone_id).2
    rw [hlist] at h
    exact h

/-- A hand-made record differing from the request in type, ttl, comment and
tags but agreeing in name and content, for C10. -/
def c10Rec : DnsRecordInfo :=
  { id := "t1", name := "www.example.com", content := "1.1.1.1",
    record_type := "TXT", ttl := 999, comment := some "hand-made",
    tags := ["keep"], proxied := false }

/-- Client state over a one-record zone holding c10Rec. -/
def c10State : CfState :=
  { zones := [], provider := [("z", [c10Rec])], list_zone_cache := none,
    list_dns_records_cache := [], failSchedule := [], nextId := 0, trace := [] }

/-- Witness for C10_compare_name_content_only: an A-type request with default
ttl/comment finds the TXT record with matching name+content and leaves the
provider untouched. -/
theorem C10_compare_name_content_only_witness :
    update_dns_record_and_wait c10State 0 c1Args
      = (Except.ok c10Rec, (list_dns_records c10State 0 "z").2)
    ∧ writeCalls (list_dns_records c10State 0 "z").2.trace = writeCalls c10State.trace
    ∧ (list_dns_records c10State 0 "z").2.provider = c10State.provider := by
  exact C10_compare_name_content_only c10State 0 c1Args "z" [c10Rec]
    (list_dns_records c10State 0 "z").2 c10Rec rfl rfl rfl rfl
    (by decide) (by decide) (by decide) (by decide)

/-- Record with the C10-counterexample stale content under the shared name. -/
def c10Stale : DnsRecordInfo :=
  { id := "s1", name := "www.example.com", content := "3.3.3.3", record_type := "A",
    ttl := 1, comment := none, tags := [], proxied := false }

/-- Client state over a zone listing the stale A record before the TXT record
whose name and content match the request. -/
def c10DupState : CfState :=
  { zones := [], provider := [("z", [c10Stale, c10Rec])], list_zone_cache := none,
    list_dns_records_cache := [], failSchedule := [], nextId := 0, trace := [] }

/-- C10 counterexample: c10Rec's name and content match the request (its type
differs), so the claim says the upsert returns it unchanged; but the FIRST
record under that name is c10Stale with different content, so the code
deletes c10Stale and creates a fresh record instead of returning c10Rec —
the provider is mutated. -/
theorem C10_counterexample :
    c10Rec ∈ [c10Stale, c10Rec]
    ∧ c10Rec.name = c1Args.name
    ∧ c10Rec.content = c1Args.content
    ∧ c10Rec.record_type ≠ c1Args.record_type.toName
    ∧ (update_dns_record_and_wait c10DupState 0 c1Args).1
        = Except.ok (createdRecord 0 c1Args)
    ∧ createdRecord 0 c1Args ≠ c10Rec
    ∧ writeCalls (update_dns_record_and_wait c10DupState 0 c1Args).2.trace
        = [ApiCall.deleteRecord "z" "s1",
           ApiCall.createRecord "z" "www.example.com" "1.1.1.1"] := by
  refine ⟨by simp, rfl, rfl, by decide, rfl, by decide, rfl⟩
